import Mathlib

/-!
Shallow embedding of `src/worker.js` (warp-fwd-dns), a Cloudflare Worker that
reconciles a DNS zone against a batch of (DeviceID, DeviceName) log entries.

External effects are modelled explicitly:
* the DNS zone is a list of A records (`Zone`), threaded through a `WorldState`;
* every `fetch` call made by the worker consumes one `FetchOutcome` from an
  oracle `Env.outcomes`, indexed by the number of fetch calls made so far:
  `ok` (HTTP round trip completes and the API reports success), `apiFail`
  (round trip completes, API reports failure), `netThrow` (the awaited fetch
  or JSON decode throws);
* a thrown JavaScript error is `Except.error`;
* the device directory (WARP API) is a function `Env.directory` from DeviceID
  to the optional `metadata.ipv4` of the result;
* every DNS-store request issued is appended to `WorldState.trace`, so that
  claims about which calls are made, and in which order, are statable.
-/

/-- A DNS A record as held by the DNS record store (id, name, content). -/
structure DNSRecord where
  id : Nat
  name : String
  content : String
  deriving Repr, DecidableEq

/-- The zone: the list of A records currently in the DNS store. -/
abbrev Zone := List DNSRecord

/-- A DNS-store request issued by the worker (query or mutation). -/
inductive StoreCall where
  | queryName (name : String)
  | queryContent (ipv4 : String)
  | create (name content : String)
  | update (id : Nat) (name content : String)
  | delete (id : Nat)
  deriving Repr, DecidableEq

/-- Whether a store call is a mutation (create/update/delete) rather than a query. -/
def StoreCall.isMutation : StoreCall → Bool
  | .queryName _ => false
  | .queryContent _ => false
  | _ => true

/-- Outcome of one `fetch` call: completes with API success, completes with
API failure (`success: false`), or throws. -/
inductive FetchOutcome where
  | ok
  | apiFail
  | netThrow
  deriving Repr, DecidableEq

/-- Mutable world threaded through the worker: the zone, a fresh-id counter
for created records, the number of fetch calls made so far (indexing the
outcome oracle), and the trace of DNS-store calls issued. -/
structure WorldState where
  zone : Zone
  nextId : Nat
  calls : Nat
  trace : List StoreCall
  deriving Repr, DecidableEq

/-- The worker's environment: the domain suffix, the device directory
(DeviceID to optional `metadata.ipv4` of a successful WARP API response), and
the per-call fetch outcome oracle. -/
structure Env where
  domainSuffix : String
  directory : String → Option String
  outcomes : Nat → FetchOutcome

/-- Advance the world by one fetch call. -/
def bumpCall (s : WorldState) (c : List StoreCall) : WorldState :=
  { s with calls := s.calls + 1, trace := s.trace ++ c }

/-- `getDNSRecord(name, env)`: GET `dns_records?type=A&name=...`; returns
`result[0]` when the API succeeds and the result is non-empty, else `null`.
A thrown fetch propagates. -/
def getDNSRecord (name : String) (env : Env) (s : WorldState) :
    Except String (Option DNSRecord × WorldState) :=
  let s1 := bumpCall s [StoreCall.queryName name]
  match env.outcomes s.calls with
  | .netThrow => .error "fetch failed"
  | .apiFail => .ok (none, s1)
  | .ok => .ok ((s1.zone.filter (fun r => r.name == name)).head?, s1)

/-- `findDuplicateDNSRecord(ipv4, env)`: GET `dns_records?type=A&content=...`;
returns `result[0]` when the API succeeds and the result is non-empty, else
`null`. A thrown fetch propagates. -/
def findDuplicateDNSRecord (ipv4 : String) (env : Env) (s : WorldState) :
    Except String (Option DNSRecord × WorldState) :=
  let s1 := bumpCall s [StoreCall.queryContent ipv4]
  match env.outcomes s.calls with
  | .netThrow => .error "fetch failed"
  | .apiFail => .ok (none, s1)
  | .ok => .ok ((s1.zone.filter (fun r => r.content == ipv4)).head?, s1)

/-- `createDNSRecord(name, content, env)`: POST a new A record. The response
is not inspected; on API success the record is appended to the zone with a
fresh id, on API failure the store is unchanged. A thrown fetch propagates. -/
def createDNSRecord (name content : String) (env : Env) (s : WorldState) :
    Except String (Unit × WorldState) :=
  let s1 := bumpCall s [StoreCall.create name content]
  match env.outcomes s.calls with
  | .netThrow => .error "fetch failed"
  | .apiFail => .ok ((), s1)
  | .ok => .ok ((), { s1 with
      zone := s1.zone ++ [⟨s1.nextId, name, content⟩],
      nextId := s1.nextId + 1 })

/-- `updateDNSRecord(recordId, name, content, env)`: PUT onto the record with
the given id. The response is not inspected; on API success the record is
replaced, on API failure the store is unchanged. A thrown fetch propagates. -/
def updateDNSRecord (recordId : Nat) (name content : String) (env : Env)
    (s : WorldState) : Except String (Unit × WorldState) :=
  let s1 := bumpCall s [StoreCall.update recordId name content]
  match env.outcomes s.calls with
  | .netThrow => .error "fetch failed"
  | .apiFail => .ok ((), s1)
  | .ok => .ok ((), { s1 with
      zone := s1.zone.map (fun r =>
        if r.id == recordId then { r with name := name, content := content } else r) })

/-- `deleteDNSRecord(recordId, env)`: DELETE the record with the given id.
The response is not inspected; on API success the record is removed, on API
failure the store is unchanged. A thrown fetch propagates. -/
def deleteDNSRecord (recordId : Nat) (env : Env) (s : WorldState) :
    Except String (Unit × WorldState) :=
  let s1 := bumpCall s [StoreCall.delete recordId]
  match env.outcomes s.calls with
  | .netThrow => .error "fetch failed"
  | .apiFail => .ok ((), s1)
  | .ok => .ok ((), { s1 with zone := s1.zone.filter (fun r => r.id != recordId) })

/-- The `deviceData` object built by the batch loop: deviceName and resolved ipv4. -/
structure DeviceData where
  name : String
  ipv4 : String
  deriving Repr, DecidableEq

/-- The audit record returned per reconciled device
(`{ action, name, ipv4, deleted_duplicate? }`). -/
structure ReconciliationAction where
  action : String
  name : String
  ipv4 : String
  deleted_duplicate : Option String := none
  deriving Repr, DecidableEq

/-- `manageDNSRecord(device, env)` from `src/worker.js`: look up the record
for `device.name + "." + DOMAIN_SUFFIX`; if absent create it; if present with
a different address, delete the first record bound to the target address (if
any) and then update; otherwise report no-change. -/
def manageDNSRecord (device : DeviceData) (env : Env) (s : WorldState) :
    Except String (ReconciliationAction × WorldState) :=
  let dnsName := device.name ++ "." ++ env.domainSuffix
  match getDNSRecord dnsName env s with
  | .error e => .error e
  | .ok (none, s1) =>
    match createDNSRecord dnsName device.ipv4 env s1 with
    | .error e => .error e
    | .ok (_, s2) =>
      .ok ({ action := "created", name := dnsName, ipv4 := device.ipv4 }, s2)
  | .ok (some existingRecord, s1) =>
    if existingRecord.content ≠ device.ipv4 then
      match findDuplicateDNSRecord device.ipv4 env s1 with
      | .error e => .error e
      | .ok (some duplicateRecord, s2) =>
        match deleteDNSRecord duplicateRecord.id env s2 with
        | .error e => .error e
        | .ok (_, s3) =>
          match updateDNSRecord existingRecord.id dnsName device.ipv4 env s3 with
          | .error e => .error e
          | .ok (_, s4) =>
            .ok ({ action := "updated", name := dnsName, ipv4 := device.ipv4,
                   deleted_duplicate := some duplicateRecord.name }, s4)
      | .ok (none, s2) =>
        match updateDNSRecord existingRecord.id dnsName device.ipv4 env s2 with
        | .error e => .error e
        | .ok (_, s3) =>
          .ok ({ action := "updated", name := dnsName, ipv4 := device.ipv4 }, s3)
    else
      .ok ({ action := "no-change", name := dnsName, ipv4 := device.ipv4 }, s1)

/-- `getDeviceDetails(deviceId, env)`: one WARP API fetch wrapped in
try/catch; returns `null` on a thrown error or an unsuccessful response,
never raising. On success it yields the directory's `metadata.ipv4` for the
device (or `none` when details/metadata/ipv4 are missing). -/
def getDeviceDetails (deviceId : String) (env : Env) (s : WorldState) :
    Option String × WorldState :=
  let s1 := { s with calls := s.calls + 1 }
  match env.outcomes s.calls with
  | .netThrow => (none, s1)
  | .apiFail => (none, s1)
  | .ok => (env.directory deviceId, s1)

/-- One decoded Logpush line; absent JSON fields decode to `""` (falsy). -/
structure LogEntry where
  DeviceID : String
  DeviceName : String
  deriving Repr, DecidableEq

/-- JS truthiness guard `if (DeviceID && DeviceName)`. -/
def validEntry (e : LogEntry) : Bool :=
  e.DeviceID != "" && e.DeviceName != ""

/-- `Map.set` on the insertion-ordered association list that models a JS
`Map`: replace in place when the key is present, append otherwise. -/
def mapSet (m : List (String × String)) (k v : String) : List (String × String) :=
  if m.any (fun p => p.1 == k) then
    m.map (fun p => if p.1 == k then (k, v) else p)
  else
    m ++ [(k, v)]

/-- The `uniqueDevices` map built from the parsed log entries: entries with a
falsy DeviceID or DeviceName are dropped, later entries overwrite earlier
ones with the same DeviceID. -/
def uniqueDevices (logEntries : List LogEntry) : List (String × String) :=
  logEntries.foldl
    (fun m entry => if validEntry entry then mapSet m entry.DeviceID entry.DeviceName else m)
    []

/-- The DeviceName of the last retained occurrence (truthy DeviceID and
DeviceName) of a given DeviceID in the batch, if any: the name the
specification says must win. -/
def lastValidName (entries : List LogEntry) (k : String) : Option String :=
  (entries.reverse.find? (fun e => validEntry e && e.DeviceID == k)).map
    (fun e => e.DeviceName)

/-- Step 3 of the handler: iterate the unique devices in insertion order; for
each, fetch its details, skip it when details or `metadata.ipv4` are missing
(JS falsy), otherwise reconcile and push the action. -/
def processDevices (devices : List (String × String)) (env : Env) (s : WorldState) :
    Except String (List ReconciliationAction × WorldState) :=
  match devices with
  | [] => .ok ([], s)
  | (deviceId, deviceName) :: rest =>
    match getDeviceDetails deviceId env s with
    | (none, s1) => processDevices rest env s1
    | (some ipv4, s1) =>
      if ipv4 == "" then processDevices rest env s1
      else
        match manageDNSRecord ⟨deviceName, ipv4⟩ env s1 with
        | .error e => .error e
        | .ok (action, s2) =>
          match processDevices rest env s2 with
          | .error e => .error e
          | .ok (actions, s3) => .ok (action :: actions, s3)

/-- The response body: a JSON array of actions on success, plain text otherwise. -/
inductive Body where
  | json (actions : List ReconciliationAction)
  | text (s : String)
  deriving Repr, DecidableEq

/-- An HTTP response (status and body). -/
structure HttpResponse where
  status : Nat
  body : Body
  deriving Repr, DecidableEq

/-- An inbound request: the HTTP method, and the result of decompressing and
line-parsing its body (`Except.error` when either step throws; the gzip and
JSON-line codecs themselves are environment-provided glue outside the spec's
scope). -/
structure Request where
  method : String
  payload : Except String (List LogEntry)

/-- The worker's `fetch` handler: 405 for non-POST; otherwise decode, dedup,
reconcile each device, and answer 200 with the action log; any error thrown
along the way is caught at the top and answered with a plain-text 500. -/
def fetchHandler (req : Request) (env : Env) (init : WorldState) : HttpResponse :=
  if req.method ≠ "POST" then
    { status := 405, body := .text "Only POST requests are allowed" }
  else
    match req.payload with
    | .error _ => { status := 500, body := .text "Error processing data" }
    | .ok logEntries =>
      match processDevices (uniqueDevices logEntries) env init with
      | .error _ => { status := 500, body := .text "Error processing data" }
      | .ok (actions, _) => { status := 200, body := .json actions }

/-- All-ok outcome oracle used in concrete runs. -/
def allOk : Nat → FetchOutcome := fun _ => .ok

/-- A two-device directory used in concrete runs. -/
def dirTwo : String → Option String := fun i =>
  if i == "dev1" then some "10.0.0.1" else if i == "dev2" then some "10.0.0.2" else none

/-- A concrete environment for concrete runs and witnesses. -/
def envOk : Env := { domainSuffix := "example.com", directory := dirTwo, outcomes := allOk }

/-- A concrete environment whose third fetch call throws (a network error on
the first store mutation of the first reconciled device). -/
def envFail : Env :=
  { domainSuffix := "example.com", directory := dirTwo,
    outcomes := fun n => if n == 2 then .netThrow else .ok }

/-- A concrete environment in which every fetch call completes but the API
reports failure. -/
def envApiFail : Env :=
  { domainSuffix := "example.com", directory := dirTwo, outcomes := fun _ => .apiFail }

/-- A concrete environment whose first two fetch calls succeed and whose
later calls complete with an API failure response. -/
def envMutFail : Env :=
  { domainSuffix := "example.com", directory := dirTwo,
    outcomes := fun n => if n ≤ 1 then .ok else .apiFail }

/-- The empty initial world. -/
def s0 : WorldState := { zone := [], nextId := 100, calls := 0, trace := [] }

/-- C3: with a zone holding `a.example.com → 10.0.0.1` and `b.example.com`
pointing to a different address, reconciling the resolved device
`(b, 10.0.0.1)` deletes the `a.example.com` record, updates the
`b.example.com` record to `10.0.0.1`, and returns an `updated` action whose
`deleted_duplicate` field equals `"a.example.com"`. -/
theorem manageDNSRecord_duplicate_resolution
    (ida idb : Nat) (addr : String) (env : Env) (s : WorldState)
    (hid : idb ≠ ida) (haddr : addr ≠ "10.0.0.1")
    (hsuf : env.domainSuffix = "example.com")
    (hok : ∀ n, env.outcomes n = .ok)
    (hz : s.zone = [⟨ida, "a.example.com", "10.0.0.1"⟩, ⟨idb, "b.example.com", addr⟩]) :
    manageDNSRecord ⟨"b", "10.0.0.1"⟩ env s =
      .ok ({ action := "updated", name := "b.example.com", ipv4 := "10.0.0.1",
             deleted_duplicate := some "a.example.com" },
           { zone := [⟨idb, "b.example.com", "10.0.0.1"⟩],
             nextId := s.nextId, calls := s.calls + 4,
             trace := s.trace ++ [StoreCall.queryName "b.example.com",
                                  StoreCall.queryContent "10.0.0.1",
                                  StoreCall.delete ida,
                                  StoreCall.update idb "b.example.com" "10.0.0.1"] }) := by
  simp [manageDNSRecord, getDNSRecord, findDuplicateDNSRecord, deleteDNSRecord,
        updateDNSRecord, bumpCall, hz, hok, hsuf, hid, haddr]

/-- Witness for `manageDNSRecord_duplicate_resolution` at a concrete zone. -/
theorem manageDNSRecord_duplicate_resolution_witness :
    manageDNSRecord ⟨"b", "10.0.0.1"⟩ envOk
        { s0 with zone := [⟨1, "a.example.com", "10.0.0.1"⟩, ⟨2, "b.example.com", "10.0.0.99"⟩] } =
      .ok ({ action := "updated", name := "b.example.com", ipv4 := "10.0.0.1",
             deleted_duplicate := some "a.example.com" },
           { zone := [⟨2, "b.example.com", "10.0.0.1"⟩],
             nextId := 100, calls := 4,
             trace := [StoreCall.queryName "b.example.com",
                       StoreCall.queryContent "10.0.0.1",
                       StoreCall.delete 1,
                       StoreCall.update 2 "b.example.com" "10.0.0.1"] }) :=
  manageDNSRecord_duplicate_resolution 1 2 "10.0.0.99" envOk
    { s0 with zone := [⟨1, "a.example.com", "10.0.0.1"⟩, ⟨2, "b.example.com", "10.0.0.99"⟩] }
    (by decide) (by decide) rfl (fun _ => rfl) rfl

/-- C7: when the existing record for the device's hostname already carries
the resolved address, `manageDNSRecord` issues only the name query (zero
create/update/delete calls), leaves the zone untouched, and returns a
`no-change` action. -/
theorem manageDNSRecord_nochange_frame (device : DeviceData) (env : Env) (s : WorldState)
    (r : DNSRecord)
    (hok : env.outcomes s.calls = .ok)
    (hfind : (s.zone.filter
        (fun x => x.name == device.name ++ "." ++ env.domainSuffix)).head? = some r)
    (heq : r.content = device.ipv4) :
    manageDNSRecord device env s =
      .ok ({ action := "no-change", name := device.name ++ "." ++ env.domainSuffix,
             ipv4 := device.ipv4 },
           { s with
               calls := s.calls + 1,
               trace := s.trace ++
                 [StoreCall.queryName (device.name ++ "." ++ env.domainSuffix)] }) := by
  simp [manageDNSRecord, getDNSRecord, bumpCall, hok, hfind, heq]

/-- Witness for `manageDNSRecord_nochange_frame` at a concrete zone. -/
theorem manageDNSRecord_nochange_frame_witness :
    manageDNSRecord ⟨"host1", "10.0.0.1"⟩ envOk
        { s0 with zone := [⟨7, "host1.example.com", "10.0.0.1"⟩] } =
      .ok ({ action := "no-change", name := "host1.example.com", ipv4 := "10.0.0.1" },
           { zone := [⟨7, "host1.example.com", "10.0.0.1"⟩], nextId := 100, calls := 1,
             trace := [StoreCall.queryName "host1.example.com"] }) :=
  manageDNSRecord_nochange_frame ⟨"host1", "10.0.0.1"⟩ envOk
    { s0 with zone := [⟨7, "host1.example.com", "10.0.0.1"⟩] }
    ⟨7, "host1.example.com", "10.0.0.1"⟩ rfl rfl rfl

/-- C2 counterexample: a network error during the first device's create call
aborts the whole batch with a thrown error (no action list at all), instead
of skipping that device and continuing with `("dev2", "host2")`. -/
theorem processDevices_store_throw_aborts :
    processDevices [("dev1", "host1"), ("dev2", "host2")] envFail s0 = .error "fetch failed" := by
  rfl

/-- C2 as amended: a DNS-store call that throws propagates and aborts the
entire batch (the head device's failure is the whole run's failure; no later
device is processed and no action list is produced), while a lookup whose
response merely reports API failure does not abort the device — it is
treated as "no record found" and reconciliation proceeds. -/
theorem store_failure_semantics :
    (∀ (env : Env) (devices : List (String × String)) (d n ipv4 e : String)
       (s s1 : WorldState),
      getDeviceDetails d env s = (some ipv4, s1) → ipv4 ≠ "" →
      manageDNSRecord ⟨n, ipv4⟩ env s1 = .error e →
      processDevices ((d, n) :: devices) env s = .error e) ∧
    (∀ (name : String) (env : Env) (s : WorldState),
      env.outcomes s.calls = .apiFail →
      getDNSRecord name env s = .ok (none, bumpCall s [StoreCall.queryName name])) := by
  constructor
  · intro env devices d n ipv4 e s s1 hdir hne hfail
    simp [processDevices, hdir, hne, hfail]
  · intro name env s h
    simp [getDNSRecord, h]

/-- Witness for `store_failure_semantics` at a concrete batch and store. -/
theorem store_failure_semantics_witness :
    processDevices [("dev1", "host1")] envFail s0 = .error "fetch failed" ∧
    getDNSRecord "x" envApiFail s0 = .ok (none, bumpCall s0 [StoreCall.queryName "x"]) :=
  ⟨store_failure_semantics.1 envFail [] "dev1" "host1" "10.0.0.1" "fetch failed" s0
      { s0 with calls := 1 } rfl (by decide) rfl,
   store_failure_semantics.2 "x" envApiFail s0 rfl⟩

/-- C8: a device whose directory lookup throws, returns an unsuccessful
response, or yields no (or a falsy) `metadata.ipv4` is skipped: the lookup
never raises, the device contributes no action and no DNS-store call, and
the batch continues with the remaining devices from an otherwise unchanged
world. -/
theorem processDevices_skips_unresolved (d n : String) (rest : List (String × String))
    (env : Env) (s : WorldState)
    (h : env.outcomes s.calls = .netThrow ∨ env.outcomes s.calls = .apiFail ∨
         (env.outcomes s.calls = .ok ∧ (env.directory d = none ∨ env.directory d = some ""))) :
    processDevices ((d, n) :: rest) env s =
      processDevices rest env { s with calls := s.calls + 1 } := by
  rcases h with h | h | ⟨h, hd | hd⟩
  · simp [processDevices, getDeviceDetails, h]
  · simp [processDevices, getDeviceDetails, h]
  · simp [processDevices, getDeviceDetails, h, hd]
  · simp [processDevices, getDeviceDetails, h, hd]

/-- Witness for `processDevices_skips_unresolved` at a device the directory
does not know. -/
theorem processDevices_skips_unresolved_witness :
    processDevices [("devX", "hostX")] envOk s0 =
      processDevices [] envOk { s0 with calls := 1 } :=
  processDevices_skips_unresolved "devX" "hostX" [] envOk s0
    (Or.inr (Or.inr ⟨rfl, Or.inl rfl⟩))

/-- C9: the handler answers 405 to any non-POST request; 200 with the JSON
array of actions when decode, parse and reconciliation complete; and 500
with a plain-text error when decoding/parsing throws or reconciliation
throws. -/
theorem fetchHandler_status_contract :
    (∀ (req : Request) (env : Env) (init : WorldState),
      req.method ≠ "POST" →
      fetchHandler req env init =
        { status := 405, body := .text "Only POST requests are allowed" }) ∧
    (∀ (req : Request) (env : Env) (init : WorldState) (entries : List LogEntry)
       (actions : List ReconciliationAction) (sf : WorldState),
      req.method = "POST" → req.payload = .ok entries →
      processDevices (uniqueDevices entries) env init = .ok (actions, sf) →
      fetchHandler req env init = { status := 200, body := .json actions }) ∧
    (∀ (req : Request) (env : Env) (init : WorldState) (e : String),
      req.method = "POST" →
      (req.payload = .error e ∨
        ∃ entries, req.payload = .ok entries ∧
          processDevices (uniqueDevices entries) env init = .error e) →
      fetchHandler req env init = { status := 500, body := .text "Error processing data" }) := by
  refine ⟨?_, ?_, ?_⟩
  · intro req env init h
    simp [fetchHandler, h]
  · intro req env init entries actions sf hm hp hr
    simp [fetchHandler, hm, hp, hr]
  · intro req env init e hm h
    rcases h with h | ⟨entries, hp, hr⟩
    · simp [fetchHandler, hm, h]
    · simp [fetchHandler, hm, hp, hr]

/-- Witness for `fetchHandler_status_contract` at concrete requests. -/
theorem fetchHandler_status_contract_witness :
    fetchHandler ⟨"GET", .ok []⟩ envOk s0 =
      { status := 405, body := Body.text "Only POST requests are allowed" } ∧
    fetchHandler ⟨"POST", .ok []⟩ envOk s0 = { status := 200, body := Body.json [] } ∧
    fetchHandler ⟨"POST", .error "bad gzip"⟩ envOk s0 =
      { status := 500, body := Body.text "Error processing data" } :=
  ⟨fetchHandler_status_contract.1 ⟨"GET", .ok []⟩ envOk s0 (by decide),
   fetchHandler_status_contract.2.1 ⟨"POST", .ok []⟩ envOk s0 [] [] s0 rfl rfl rfl,
   fetchHandler_status_contract.2.2 ⟨"POST", .error "bad gzip"⟩ envOk s0 "bad gzip" rfl
     (Or.inl rfl)⟩

/-- C4: whenever reconciliation takes the duplicate branch (existing record
with a differing address, and some record bound to the target address), the
delete of the duplicate is issued strictly before the update of the existing
record: the store-call trace extends by name query, content query, delete,
update, in exactly that order, regardless of how the two mutations fare. -/
theorem duplicate_delete_before_update
    (device : DeviceData) (env : Env) (s : WorldState) (existing dup : DNSRecord)
    (hq1 : env.outcomes s.calls = .ok)
    (hfind : (s.zone.filter
        (fun r => r.name == device.name ++ "." ++ env.domainSuffix)).head? = some existing)
    (hneq : existing.content ≠ device.ipv4)
    (hq2 : env.outcomes (s.calls + 1) = .ok)
    (hdup : (s.zone.filter (fun r => r.content == device.ipv4)).head? = some dup)
    (hd : env.outcomes (s.calls + 1 + 1) ≠ .netThrow)
    (hu : env.outcomes (s.calls + 1 + 1 + 1) ≠ .netThrow) :
    ∃ a s4, manageDNSRecord device env s = .ok (a, s4) ∧
      s4.trace = s.trace ++
        [StoreCall.queryName (device.name ++ "." ++ env.domainSuffix),
         StoreCall.queryContent device.ipv4,
         StoreCall.delete dup.id,
         StoreCall.update existing.id (device.name ++ "." ++ env.domainSuffix)
           device.ipv4] := by
  cases h2 : env.outcomes (s.calls + 1 + 1) with
  | netThrow => exact absurd h2 hd
  | ok =>
    cases h3 : env.outcomes (s.calls + 1 + 1 + 1) with
    | netThrow => exact absurd h3 hu
    | ok =>
      simp [manageDNSRecord, getDNSRecord, findDuplicateDNSRecord, deleteDNSRecord,
            updateDNSRecord, bumpCall, hq1, hq2, hfind, hdup, hneq, h2, h3]
      exact ⟨_, _, ⟨rfl, rfl⟩, rfl⟩
    | apiFail =>
      simp [manageDNSRecord, getDNSRecord, findDuplicateDNSRecord, deleteDNSRecord,
            updateDNSRecord, bumpCall, hq1, hq2, hfind, hdup, hneq, h2, h3]
      exact ⟨_, _, ⟨rfl, rfl⟩, rfl⟩
  | apiFail =>
    cases h3 : env.outcomes (s.calls + 1 + 1 + 1) with
    | netThrow => exact absurd h3 hu
    | ok =>
      simp [manageDNSRecord, getDNSRecord, findDuplicateDNSRecord, deleteDNSRecord,
            updateDNSRecord, bumpCall, hq1, hq2, hfind, hdup, hneq, h2, h3]
      exact ⟨_, _, ⟨rfl, rfl⟩, rfl⟩
    | apiFail =>
      simp [manageDNSRecord, getDNSRecord, findDuplicateDNSRecord, deleteDNSRecord,
            updateDNSRecord, bumpCall, hq1, hq2, hfind, hdup, hneq, h2, h3]
      exact ⟨_, _, ⟨rfl, rfl⟩, rfl⟩

/-- Witness for `duplicate_delete_before_update` at a concrete zone. -/
theorem duplicate_delete_before_update_witness :
    ∃ a s4,
      manageDNSRecord ⟨"b", "10.0.0.1"⟩ envOk
        { s0 with zone := [⟨1, "a.example.com", "10.0.0.1"⟩,
                           ⟨2, "b.example.com", "10.0.0.99"⟩] } = .ok (a, s4) ∧
      s4.trace = [] ++
        [StoreCall.queryName "b.example.com", StoreCall.queryContent "10.0.0.1",
         StoreCall.delete 1, StoreCall.update 2 "b.example.com" "10.0.0.1"] :=
  duplicate_delete_before_update ⟨"b", "10.0.0.1"⟩ envOk
    { s0 with zone := [⟨1, "a.example.com", "10.0.0.1"⟩, ⟨2, "b.example.com", "10.0.0.99"⟩] }
    ⟨2, "b.example.com", "10.0.0.99"⟩ ⟨1, "a.example.com", "10.0.0.1"⟩
    rfl rfl (by decide) rfl rfl (by decide) (by decide)

/-- C5: against a zone with no record for the device's hostname, reconciling
the same resolved device twice in a row with no external change yields a
`created` action and then a `no-change` action; the second run issues only
the name query (no create call), and the zone holds exactly one record for
the hostname after either run. -/
theorem manageDNSRecord_idempotent_create
    (device : DeviceData) (env : Env) (s : WorldState)
    (hok : ∀ n, env.outcomes n = .ok)
    (hnone : s.zone.filter (fun r => r.name == device.name ++ "." ++ env.domainSuffix) = []) :
    manageDNSRecord device env s =
      .ok ({ action := "created", name := device.name ++ "." ++ env.domainSuffix,
             ipv4 := device.ipv4 },
           { zone := s.zone ++ [⟨s.nextId, device.name ++ "." ++ env.domainSuffix, device.ipv4⟩],
             nextId := s.nextId + 1, calls := s.calls + 1 + 1,
             trace := s.trace ++
               [StoreCall.queryName (device.name ++ "." ++ env.domainSuffix),
                StoreCall.create (device.name ++ "." ++ env.domainSuffix) device.ipv4] }) ∧
    manageDNSRecord device env
        { zone := s.zone ++ [⟨s.nextId, device.name ++ "." ++ env.domainSuffix, device.ipv4⟩],
          nextId := s.nextId + 1, calls := s.calls + 1 + 1,
          trace := s.trace ++
            [StoreCall.queryName (device.name ++ "." ++ env.domainSuffix),
             StoreCall.create (device.name ++ "." ++ env.domainSuffix) device.ipv4] } =
      .ok ({ action := "no-change", name := device.name ++ "." ++ env.domainSuffix,
             ipv4 := device.ipv4 },
           { zone := s.zone ++ [⟨s.nextId, device.name ++ "." ++ env.domainSuffix, device.ipv4⟩],
             nextId := s.nextId + 1, calls := s.calls + 1 + 1 + 1,
             trace := (s.trace ++
               [StoreCall.queryName (device.name ++ "." ++ env.domainSuffix),
                StoreCall.create (device.name ++ "." ++ env.domainSuffix) device.ipv4]) ++
               [StoreCall.queryName (device.name ++ "." ++ env.domainSuffix)] }) ∧
    (s.zone ++
        [(⟨s.nextId, device.name ++ "." ++ env.domainSuffix, device.ipv4⟩ : DNSRecord)]).filter
        (fun r => r.name == device.name ++ "." ++ env.domainSuffix) =
      [(⟨s.nextId, device.name ++ "." ++ env.domainSuffix, device.ipv4⟩ : DNSRecord)] := by
  refine ⟨?_, ?_, ?_⟩
  · simp [manageDNSRecord, getDNSRecord, createDNSRecord, bumpCall, hok, hnone]
  · simp [manageDNSRecord, getDNSRecord, bumpCall, hok, hnone, List.filter_append]
  · simp [List.filter_append, hnone]

/-- Witness for `manageDNSRecord_idempotent_create` on the empty zone. -/
theorem manageDNSRecord_idempotent_create_witness :
    manageDNSRecord ⟨"host1", "10.0.0.1"⟩ envOk s0 =
      .ok ({ action := "created", name := "host1.example.com", ipv4 := "10.0.0.1" },
           { zone := [⟨100, "host1.example.com", "10.0.0.1"⟩], nextId := 101, calls := 2,
             trace := [StoreCall.queryName "host1.example.com",
                       StoreCall.create "host1.example.com" "10.0.0.1"] }) ∧
    manageDNSRecord ⟨"host1", "10.0.0.1"⟩ envOk
        { zone := [⟨100, "host1.example.com", "10.0.0.1"⟩], nextId := 101, calls := 2,
          trace := [StoreCall.queryName "host1.example.com",
                    StoreCall.create "host1.example.com" "10.0.0.1"] } =
      .ok ({ action := "no-change", name := "host1.example.com", ipv4 := "10.0.0.1" },
           { zone := [⟨100, "host1.example.com", "10.0.0.1"⟩], nextId := 101, calls := 3,
             trace := [StoreCall.queryName "host1.example.com",
                       StoreCall.create "host1.example.com" "10.0.0.1",
                       StoreCall.queryName "host1.example.com"] }) ∧
    ([⟨100, "host1.example.com", "10.0.0.1"⟩] : Zone).filter
        (fun r => r.name == "host1.example.com") =
      [⟨100, "host1.example.com", "10.0.0.1"⟩] :=
  manageDNSRecord_idempotent_create ⟨"host1", "10.0.0.1"⟩ envOk s0 (fun _ => rfl) rfl

/-- C10: the create/update/delete calls never inspect the API response: a
create whose response reports failure (zone unchanged) still returns a
`created` action, an update whose response reports failure still returns an
`updated` action, the batch loop records such a success action in the
action log, and in the duplicate branch a delete and an update whose
responses both report failure (zone unchanged, the duplicate record still
present) still return an `updated` action carrying `deleted_duplicate`. -/
theorem mutation_response_never_inspected :
    (∀ (device : DeviceData) (env : Env) (s : WorldState),
      env.outcomes s.calls = .ok →
      s.zone.filter (fun r => r.name == device.name ++ "." ++ env.domainSuffix) = [] →
      env.outcomes (s.calls + 1) = .apiFail →
      manageDNSRecord device env s =
        .ok ({ action := "created", name := device.name ++ "." ++ env.domainSuffix,
               ipv4 := device.ipv4 },
             { s with
                 calls := s.calls + 1 + 1,
                 trace := s.trace ++
                   [StoreCall.queryName (device.name ++ "." ++ env.domainSuffix),
                    StoreCall.create (device.name ++ "." ++ env.domainSuffix) device.ipv4] })) ∧
    (∀ (device : DeviceData) (env : Env) (s : WorldState) (r : DNSRecord),
      env.outcomes s.calls = .ok →
      (s.zone.filter (fun x => x.name == device.name ++ "." ++ env.domainSuffix)).head? =
        some r →
      r.content ≠ device.ipv4 →
      env.outcomes (s.calls + 1) = .ok →
      s.zone.filter (fun x => x.content == device.ipv4) = [] →
      env.outcomes (s.calls + 1 + 1) = .apiFail →
      manageDNSRecord device env s =
        .ok ({ action := "updated", name := device.name ++ "." ++ env.domainSuffix,
               ipv4 := device.ipv4 },
             { s with
                 calls := s.calls + 1 + 1 + 1,
                 trace := s.trace ++
                   [StoreCall.queryName (device.name ++ "." ++ env.domainSuffix),
                    StoreCall.queryContent device.ipv4,
                    StoreCall.update r.id (device.name ++ "." ++ env.domainSuffix)
                      device.ipv4] })) ∧
    (∀ (d n : String) (env : Env) (s : WorldState) (ipv4 : String),
      env.outcomes s.calls = .ok → env.directory d = some ipv4 → ipv4 ≠ "" →
      env.outcomes (s.calls + 1) = .ok →
      s.zone.filter (fun r => r.name == n ++ "." ++ env.domainSuffix) = [] →
      env.outcomes (s.calls + 1 + 1) = .apiFail →
      processDevices [(d, n)] env s =
        .ok ([{ action := "created", name := n ++ "." ++ env.domainSuffix, ipv4 := ipv4 }],
             { s with
                 calls := s.calls + 1 + 1 + 1,
                 trace := s.trace ++
                   [StoreCall.queryName (n ++ "." ++ env.domainSuffix),
                    StoreCall.create (n ++ "." ++ env.domainSuffix) ipv4] })) ∧
    (∀ (device : DeviceData) (env : Env) (s : WorldState) (r dup : DNSRecord),
      env.outcomes s.calls = .ok →
      (s.zone.filter (fun x => x.name == device.name ++ "." ++ env.domainSuffix)).head? =
        some r →
      r.content ≠ device.ipv4 →
      env.outcomes (s.calls + 1) = .ok →
      (s.zone.filter (fun x => x.content == device.ipv4)).head? = some dup →
      env.outcomes (s.calls + 1 + 1) = .apiFail →
      env.outcomes (s.calls + 1 + 1 + 1) = .apiFail →
      manageDNSRecord device env s =
        .ok ({ action := "updated", name := device.name ++ "." ++ env.domainSuffix,
               ipv4 := device.ipv4, deleted_duplicate := some dup.name },
             { s with
                 calls := s.calls + 1 + 1 + 1 + 1,
                 trace := s.trace ++
                   [StoreCall.queryName (device.name ++ "." ++ env.domainSuffix),
                    StoreCall.queryContent device.ipv4,
                    StoreCall.delete dup.id,
                    StoreCall.update r.id (device.name ++ "." ++ env.domainSuffix)
                      device.ipv4] })) := by
  refine ⟨?_, ?_, ?_, ?_⟩
  · intro device env s h0 hnone h1
    simp [manageDNSRecord, getDNSRecord, createDNSRecord, bumpCall, h0, hnone, h1]
  · intro device env s r h0 hfind hneq h1 hnodup h2
    simp [manageDNSRecord, getDNSRecord, findDuplicateDNSRecord, updateDNSRecord,
          bumpCall, h0, hfind, hneq, h1, hnodup, h2]
  · intro d n env s ipv4 h0 hdir hne h1 hnone h2
    simp [processDevices, getDeviceDetails, manageDNSRecord, getDNSRecord,
          createDNSRecord, bumpCall, h0, hdir, hne, h1, hnone, h2]
  · intro device env s r dup h0 hfind hneq h1 hdup h2 h3
    simp [manageDNSRecord, getDNSRecord, findDuplicateDNSRecord, deleteDNSRecord,
          updateDNSRecord, bumpCall, h0, hfind, hneq, h1, hdup, h2, h3]

/-- Witness for `mutation_response_never_inspected` at concrete failing
mutations. -/
theorem mutation_response_never_inspected_witness :
    manageDNSRecord ⟨"host1", "10.0.0.1"⟩ envMutFail { s0 with calls := 1 } =
      .ok ({ action := "created", name := "host1.example.com", ipv4 := "10.0.0.1" },
           { zone := [], nextId := 100, calls := 3,
             trace := [StoreCall.queryName "host1.example.com",
                       StoreCall.create "host1.example.com" "10.0.0.1"] }) ∧
    manageDNSRecord ⟨"host1", "10.0.0.1"⟩ envMutFail
        { s0 with zone := [⟨7, "host1.example.com", "10.0.0.9"⟩] } =
      .ok ({ action := "updated", name := "host1.example.com", ipv4 := "10.0.0.1" },
           { zone := [⟨7, "host1.example.com", "10.0.0.9"⟩], nextId := 100, calls := 3,
             trace := [StoreCall.queryName "host1.example.com",
                       StoreCall.queryContent "10.0.0.1",
                       StoreCall.update 7 "host1.example.com" "10.0.0.1"] }) ∧
    processDevices [("dev1", "host1")] envMutFail s0 =
      .ok ([{ action := "created", name := "host1.example.com", ipv4 := "10.0.0.1" }],
           { zone := [], nextId := 100, calls := 3,
             trace := [StoreCall.queryName "host1.example.com",
                       StoreCall.create "host1.example.com" "10.0.0.1"] }) ∧
    manageDNSRecord ⟨"host1", "10.0.0.1"⟩ envMutFail
        { s0 with zone := [⟨7, "host1.example.com", "10.0.0.9"⟩,
                           ⟨3, "stale.example.com", "10.0.0.1"⟩] } =
      .ok ({ action := "updated", name := "host1.example.com", ipv4 := "10.0.0.1",
             deleted_duplicate := some "stale.example.com" },
           { zone := [⟨7, "host1.example.com", "10.0.0.9"⟩,
                      ⟨3, "stale.example.com", "10.0.0.1"⟩],
             nextId := 100, calls := 4,
             trace := [StoreCall.queryName "host1.example.com",
                       StoreCall.queryContent "10.0.0.1",
                       StoreCall.delete 3,
                       StoreCall.update 7 "host1.example.com" "10.0.0.1"] }) :=
  ⟨mutation_response_never_inspected.1 ⟨"host1", "10.0.0.1"⟩ envMutFail
      { s0 with calls := 1 } rfl rfl rfl,
   mutation_response_never_inspected.2.1 ⟨"host1", "10.0.0.1"⟩ envMutFail
      { s0 with zone := [⟨7, "host1.example.com", "10.0.0.9"⟩] }
      ⟨7, "host1.example.com", "10.0.0.9"⟩ rfl rfl (by decide) rfl rfl rfl,
   mutation_response_never_inspected.2.2.1 "dev1" "host1" envMutFail s0 "10.0.0.1"
      rfl rfl (by decide) rfl rfl rfl,
   mutation_response_never_inspected.2.2.2 ⟨"host1", "10.0.0.1"⟩ envMutFail
      { s0 with zone := [⟨7, "host1.example.com", "10.0.0.9"⟩,
                         ⟨3, "stale.example.com", "10.0.0.1"⟩] }
      ⟨7, "host1.example.com", "10.0.0.9"⟩ ⟨3, "stale.example.com", "10.0.0.1"⟩
      rfl rfl (by decide) rfl rfl rfl rfl⟩

/-- Keys of the JS-Map model after `set`: unchanged when the key is already
present, extended by the new key otherwise. -/
theorem mapSet_map_fst (m : List (String × String)) (k v : String) :
    (mapSet m k v).map Prod.fst =
      if m.any (fun p => p.1 == k) then m.map Prod.fst else m.map Prod.fst ++ [k] := by
  unfold mapSet
  by_cases h : m.any (fun p => p.1 == k)
  · rw [if_pos h, if_pos h, List.map_map]
    apply List.map_congr_left
    intro p hp
    by_cases hpk : p.1 = k
    · simp [hpk]
    · simp [hpk]
  · rw [if_neg h, if_neg h]
    simp

/-- Membership after `Map.set`: either the freshly set pair, or an untouched
pair with a different key. -/
theorem mem_mapSet (m : List (String × String)) (k v k' v' : String)
    (h : (k', v') ∈ mapSet m k v) :
    (k' = k ∧ v' = v) ∨ (k' ≠ k ∧ (k', v') ∈ m) := by
  unfold mapSet at h
  by_cases hany : m.any (fun p => p.1 == k)
  · rw [if_pos hany] at h
    obtain ⟨p, hp, hpe⟩ := List.mem_map.1 h
    by_cases hpk : (p.1 == k) = true
    · rw [if_pos hpk] at hpe
      left
      exact ⟨congrArg Prod.fst hpe.symm, congrArg Prod.snd hpe.symm⟩
    · rw [if_neg hpk] at hpe
      right
      refine ⟨?_, hpe ▸ hp⟩
      intro hkk
      apply hpk
      rw [hpe]
      simp [hkk]
  · rw [if_neg hany] at h
    rcases List.mem_append.1 h with h | h
    · right
      refine ⟨?_, h⟩
      intro hkk
      apply hany
      exact List.any_eq_true.2 ⟨(k', v'), h, by simp [hkk]⟩
    · left
      simp only [List.mem_singleton] at h
      exact ⟨congrArg Prod.fst h, congrArg Prod.snd h⟩

/-- `Map.set` preserves the uniqueness of keys. -/
theorem mapSet_nodup (m : List (String × String)) (k v : String)
    (h : (m.map Prod.fst).Nodup) : ((mapSet m k v).map Prod.fst).Nodup := by
  rw [mapSet_map_fst]
  by_cases hany : m.any (fun p => p.1 == k)
  · simpa [hany] using h
  · rw [if_neg hany, List.nodup_append]
    refine ⟨h, List.nodup_singleton k, ?_⟩
    intro a ha hk
    simp only [List.mem_singleton] at hk
    subst hk
    obtain ⟨p, hp, hfst⟩ := List.mem_map.1 ha
    exact hany (List.any_eq_true.2 ⟨p, hp, by simp [hfst]⟩)

/-- `uniqueDevices` over a batch extended by one entry. -/
theorem uniqueDevices_append_singleton (es : List LogEntry) (e : LogEntry) :
    uniqueDevices (es ++ [e]) =
      if validEntry e then mapSet (uniqueDevices es) e.DeviceID e.DeviceName
      else uniqueDevices es := by
  simp [uniqueDevices, List.foldl_append]

/-- `lastValidName` over a batch extended by one entry. -/
theorem lastValidName_append_singleton (es : List LogEntry) (e : LogEntry) (k : String) :
    lastValidName (es ++ [e]) k =
      if validEntry e && e.DeviceID == k then some e.DeviceName else lastValidName es k := by
  unfold lastValidName
  rw [List.reverse_append]
  simp only [List.reverse_singleton, List.singleton_append]
  cases h : (validEntry e && (e.DeviceID == k)) with
  | true => simp [List.find?_cons, h]
  | false => simp [List.find?_cons, h]

/-- C6: the deduplicated work list has at most one entry per DeviceID, and
the name bound to each DeviceID is the name of the last retained occurrence
of that DeviceID in the batch — later occurrences silently overwrite earlier
ones, with no conflict error possible. -/
theorem uniqueDevices_last_occurrence_wins (entries : List LogEntry) :
    ((uniqueDevices entries).map Prod.fst).Nodup ∧
    ∀ k v, (k, v) ∈ uniqueDevices entries → lastValidName entries k = some v := by
  induction entries using List.reverseRecOn with
  | nil => simp [uniqueDevices, lastValidName]
  | append_singleton es e ih =>
    obtain ⟨ihn, ihm⟩ := ih
    rw [uniqueDevices_append_singleton]
    by_cases hv : validEntry e
    · rw [if_pos hv]
      refine ⟨mapSet_nodup _ _ _ ihn, ?_⟩
      intro k v hkv
      rw [lastValidName_append_singleton]
      rcases mem_mapSet _ _ _ _ _ hkv with ⟨hk, hval⟩ | ⟨hk, hmem⟩
      · rw [if_pos (by simp [hv, hk]), hval]
      · rw [if_neg (by simp [hv]; intro hh; exact hk hh.symm)]
        exact ihm k v hmem
    · rw [if_neg hv]
      refine ⟨ihn, ?_⟩
      intro k v hkv
      rw [lastValidName_append_singleton]
      rw [if_neg (by simp [hv])]
      exact ihm k v hkv

/-- Witness for `uniqueDevices_last_occurrence_wins` on a batch repeating a
DeviceID under two names. -/
theorem uniqueDevices_last_occurrence_wins_witness :
    ((uniqueDevices [⟨"d1", "n1"⟩, ⟨"d2", "x"⟩, ⟨"d1", "n2"⟩]).map Prod.fst).Nodup ∧
    lastValidName [⟨"d1", "n1"⟩, ⟨"d2", "x"⟩, ⟨"d1", "n2"⟩] "d1" = some "n2" :=
  ⟨(uniqueDevices_last_occurrence_wins [⟨"d1", "n1"⟩, ⟨"d2", "x"⟩, ⟨"d1", "n2"⟩]).1,
   (uniqueDevices_last_occurrence_wins [⟨"d1", "n1"⟩, ⟨"d2", "x"⟩, ⟨"d1", "n2"⟩]).2
     "d1" "n2" (by decide)⟩

/-- A list with head `a` and at most one element is exactly `[a]`. -/
theorem head?_length_le_one {α : Type} (l : List α) (a : α)
    (h1 : l.head? = some a) (h2 : l.length ≤ 1) : l = [a] := by
  cases l with
  | nil => simp at h1
  | cons b t =>
    cases t with
    | nil => simp_all
    | cons c u => simp at h2

/-- C1 counterexample: reconciling `(b, 10.0.0.1)` against a zone whose only
record is `a.example.com → 10.0.0.1` takes the create path (no record named
`b.example.com` exists), so no duplicate check runs: the new record is
created and the stale `a.example.com` record bound to the same target
address survives — after reconcile another hostname still holds a record
bound to the device's address. -/
theorem manageDNSRecord_create_leaves_stale_duplicate :
    manageDNSRecord ⟨"b", "10.0.0.1"⟩ envOk
        { s0 with zone := [⟨1, "a.example.com", "10.0.0.1"⟩] } =
      .ok ({ action := "created", name := "b.example.com", ipv4 := "10.0.0.1" },
           { zone := [⟨1, "a.example.com", "10.0.0.1"⟩, ⟨100, "b.example.com", "10.0.0.1"⟩],
             nextId := 101, calls := 2,
             trace := [StoreCall.queryName "b.example.com",
                       StoreCall.create "b.example.com" "10.0.0.1"] }) ∧
    (⟨1, "a.example.com", "10.0.0.1"⟩ : DNSRecord) ∈
      ([⟨1, "a.example.com", "10.0.0.1"⟩, ⟨100, "b.example.com", "10.0.0.1"⟩] : Zone) ∧
    "a.example.com" ≠ "b.example.com" :=
  ⟨rfl, by decide, by decide⟩

/-- C1 as amended: the cross-hostname address-ownership invariant holds on
the update path only. When an existing record for the hostname is found with
a differing address — under the steady-state assumptions that the hostname
matches exactly one record, at most one record is bound to the target
address, and record ids identify records uniquely — reconciliation returns
an `updated` action, after which the hostname resolves to exactly one
record, carrying the target address, and no other hostname holds any record
bound to that address. On the create (and no-change) paths no duplicate
check runs and a stale record at another hostname bound to the same address
survives. -/
theorem manageDNSRecord_update_path_invariant
    (device : DeviceData) (env : Env) (s : WorldState) (existing : DNSRecord)
    (hok : ∀ n, env.outcomes n = .ok)
    (hcount : s.zone.filter
        (fun r => r.name == device.name ++ "." ++ env.domainSuffix) = [existing])
    (hneq : existing.content ≠ device.ipv4)
    (hlen : (s.zone.filter (fun r => r.content == device.ipv4)).length ≤ 1)
    (hinj : ∀ r1 ∈ s.zone, ∀ r2 ∈ s.zone, r1.id = r2.id → r1 = r2) :
    ∃ a s4, manageDNSRecord device env s = .ok (a, s4) ∧
      a.action = "updated" ∧
      s4.zone.filter (fun r => r.name == device.name ++ "." ++ env.domainSuffix) =
        [⟨existing.id, device.name ++ "." ++ env.domainSuffix, device.ipv4⟩] ∧
      ∀ r ∈ s4.zone, r.content = device.ipv4 →
        r.name = device.name ++ "." ++ env.domainSuffix := by
  have hex : existing ∈ s.zone ∧
      (existing.name == device.name ++ "." ++ env.domainSuffix) = true := by
    have h0 : existing ∈ s.zone.filter
        (fun r => r.name == device.name ++ "." ++ env.domainSuffix) := by
      rw [hcount]
      exact List.mem_singleton_self existing
    exact List.mem_filter.1 h0
  have hex_name : existing.name = device.name ++ "." ++ env.domainSuffix := by
    simpa using hex.2
  have huniq_name : ∀ r ∈ s.zone,
      r.name = device.name ++ "." ++ env.domainSuffix → r = existing := by
    intro r hr hrn
    have hmem : r ∈ s.zone.filter
        (fun r => r.name == device.name ++ "." ++ env.domainSuffix) :=
      List.mem_filter.2 ⟨hr, by simp [hrn]⟩
    rw [hcount] at hmem
    simpa using hmem
  rcases hdup : (s.zone.filter (fun r => r.content == device.ipv4)).head? with _ | dup
  · -- no record anywhere holds the target address: plain update
    have hfe : s.zone.filter (fun r => r.content == device.ipv4) = [] := by
      simpa using hdup
    have hrun : manageDNSRecord device env s =
        .ok ({ action := "updated", name := device.name ++ "." ++ env.domainSuffix,
               ipv4 := device.ipv4 },
             { zone := s.zone.map (fun r =>
                 if r.id == existing.id then
                   { r with name := device.name ++ "." ++ env.domainSuffix,
                            content := device.ipv4 }
                 else r),
               nextId := s.nextId, calls := s.calls + 1 + 1 + 1,
               trace := s.trace ++
                 [StoreCall.queryName (device.name ++ "." ++ env.domainSuffix),
                  StoreCall.queryContent device.ipv4,
                  StoreCall.update existing.id
                    (device.name ++ "." ++ env.domainSuffix) device.ipv4] }) := by
      simp [manageDNSRecord, getDNSRecord, findDuplicateDNSRecord, updateDNSRecord,
            bumpCall, hok, hcount, hneq, hdup]
    refine ⟨_, _, hrun, rfl, ?_, ?_⟩
    · simp only [List.filter_map]
      have hpf : s.zone.filter
          ((fun r => r.name == device.name ++ "." ++ env.domainSuffix) ∘ (fun r =>
            if r.id == existing.id then
              { r with name := device.name ++ "." ++ env.domainSuffix,
                       content := device.ipv4 }
            else r)) = [existing] := by
        rw [← hcount]
        apply List.filter_congr
        intro r hr
        by_cases hid : r.id = existing.id
        · have hre : r = existing := hinj r hr existing hex.1 hid
          subst hre
          simp [hex_name]
        · simp [hid]
      rw [hpf]
      simp
    · intro r' hr' hc
      obtain ⟨r, hr, hfr⟩ := List.mem_map.1 hr'
      by_cases hid : r.id = existing.id
      · rw [← hfr]
        simp [hid]
      · rw [← hfr] at hc ⊢
        simp only [hid, if_false, beq_iff_eq, if_neg hid] at hc ⊢
        exfalso
        have hmem : r ∈ s.zone.filter (fun x => x.content == device.ipv4) :=
          List.mem_filter.2 ⟨hr, by simp [hc]⟩
        rw [hfe] at hmem
        simp at hmem
  · -- one other record holds the target address: delete it, then update
    have hfl : s.zone.filter (fun r => r.content == device.ipv4) = [dup] :=
      head?_length_le_one _ _ hdup hlen
    have hdm : dup ∈ s.zone ∧ (dup.content == device.ipv4) = true := by
      have h0 : dup ∈ s.zone.filter (fun r => r.content == device.ipv4) := by
        rw [hfl]
        exact List.mem_singleton_self dup
      exact List.mem_filter.1 h0
    have hdc : dup.content = device.ipv4 := by simpa using hdm.2
    have huniq_addr : ∀ r ∈ s.zone, r.content = device.ipv4 → r = dup := by
      intro r hr hrc
      have hmem : r ∈ s.zone.filter (fun x => x.content == device.ipv4) :=
        List.mem_filter.2 ⟨hr, by simp [hrc]⟩
      rw [hfl] at hmem
      simpa using hmem
    have hdne : dup ≠ existing := by
      intro h
      exact hneq (h ▸ hdc)
    have hdid : dup.id ≠ existing.id := by
      intro h
      exact hdne (hinj dup hdm.1 existing hex.1 h)
    have hrun : manageDNSRecord device env s =
        .ok ({ action := "updated", name := device.name ++ "." ++ env.domainSuffix,
               ipv4 := device.ipv4, deleted_duplicate := some dup.name },
             { zone := (s.zone.filter (fun r => r.id != dup.id)).map (fun r =>
                 if r.id == existing.id then
                   { r with name := device.name ++ "." ++ env.domainSuffix,
                            content := device.ipv4 }
                 else r),
               nextId := s.nextId, calls := s.calls + 1 + 1 + 1 + 1,
               trace := s.trace ++
                 [StoreCall.queryName (device.name ++ "." ++ env.domainSuffix),
                  StoreCall.queryContent device.ipv4,
                  StoreCall.delete dup.id,
                  StoreCall.update existing.id
                    (device.name ++ "." ++ env.domainSuffix) device.ipv4] }) := by
      simp [manageDNSRecord, getDNSRecord, findDuplicateDNSRecord, deleteDNSRecord,
            updateDNSRecord, bumpCall, hok, hcount, hneq, hdup]
    refine ⟨_, _, hrun, rfl, ?_, ?_⟩
    · simp only [List.filter_map]
      have hzone1 : (s.zone.filter (fun r => r.id != dup.id)).filter
          ((fun r => r.name == device.name ++ "." ++ env.domainSuffix) ∘ (fun r =>
            if r.id == existing.id then
              { r with name := device.name ++ "." ++ env.domainSuffix,
                       content := device.ipv4 }
            else r)) =
          (s.zone.filter (fun r => r.id != dup.id)).filter
            (fun r => r.name == device.name ++ "." ++ env.domainSuffix) := by
        apply List.filter_congr
        intro r hr
        have hrz : r ∈ s.zone := (List.mem_filter.1 hr).1
        by_cases hid : r.id = existing.id
        · have hre : r = existing := hinj r hrz existing hex.1 hid
          subst hre
          simp [hex_name]
        · simp [hid]
      rw [hzone1]
      simp only [List.filter_filter]
      have hflt : s.zone.filter
          (fun a => a.name == device.name ++ "." ++ env.domainSuffix &&
            a.id != dup.id) = [existing] := by
        rw [← hcount]
        apply List.filter_congr
        intro r hr
        by_cases hrn : r.name = device.name ++ "." ++ env.domainSuffix
        · have hre : r = existing := huniq_name r hr hrn
          subst hre
          simp [hrn, Ne.symm hdid]
        · simp [hrn]
      rw [hflt]
      simp
    · intro r' hr' hc
      obtain ⟨r, hr, hfr⟩ := List.mem_map.1 hr'
      have hrz : r ∈ s.zone := (List.mem_filter.1 hr).1
      have hrd : (r.id != dup.id) = true := (List.mem_filter.1 hr).2
      by_cases hid : r.id = existing.id
      · rw [← hfr]
        simp [hid]
      · rw [← hfr] at hc ⊢
        simp only [hid, beq_iff_eq, if_neg hid] at hc ⊢
        exfalso
        have hrdup : r = dup := huniq_addr r hrz hc
        subst hrdup
        simp at hrd

/-- Witness for `manageDNSRecord_update_path_invariant` at a concrete zone
holding a stale duplicate. -/
theorem manageDNSRecord_update_path_invariant_witness :
    ∃ a s4,
      manageDNSRecord ⟨"b", "10.0.0.1"⟩ envOk
        { s0 with zone := [⟨1, "a.example.com", "10.0.0.1"⟩,
                           ⟨2, "b.example.com", "10.0.0.99"⟩] } = .ok (a, s4) ∧
      a.action = "updated" ∧
      s4.zone.filter (fun r => r.name == "b.example.com") =
        [⟨2, "b.example.com", "10.0.0.1"⟩] ∧
      ∀ r ∈ s4.zone, r.content = "10.0.0.1" → r.name = "b.example.com" :=
  manageDNSRecord_update_path_invariant ⟨"b", "10.0.0.1"⟩ envOk
    { s0 with zone := [⟨1, "a.example.com", "10.0.0.1"⟩, ⟨2, "b.example.com", "10.0.0.99"⟩] }
    ⟨2, "b.example.com", "10.0.0.99"⟩
    (fun _ => rfl) rfl (by decide) (by decide) (by decide)
